import Mathlib

/-!
Shallow embedding of `google_maps.py` (a Google-Maps MCP server) and proofs
about it.

Modelling conventions:
* Python dicts carrying JSON data are modelled by the inductive `Json`;
  dict/list indexing (`d[k]`, `xs[i]`) is fallible and runs in
  `Except String`, where `.error` models a raised Python exception
  (KeyError / IndexError / TypeError / AttributeError).
* `dict.get` is modelled by `Json.dget` (returning `Option Json`) and Python
  truthiness by `Json.isTruthy`.
* JSON numbers are modelled exactly: `PyNum.int` for JSON integers and
  `PyNum.dec m e` for decimal literals with value `m / 10 ^ e` (CPython's
  binary doubles are modelled by the exact decimals they were parsed from).
  Python's `str()` of a number is modelled by `pyNumStr` (shortest decimal
  expansion) and the `:.2f` format specifier by `fix2` (round to nearest
  hundredth, exactly 2 decimal digits).
* The HTTP transport is an environment parameter `net`; `HttpResult.netError`
  models a raised transport exception (carrying the exception's message, which
  for real HTTP-client errors may embed the request URL), and
  `HttpResult.response` carries the HTTP status, the message of the
  status-error exception `raise_for_status` would raise, and the parsed body.
* Each tool operation returns a `ToolRun`: its result (or modelled exception),
  the list of gateway invocations it performed, and the diagnostic log lines
  printed by the gateway.
-/

/-- Query parameters: an insertion-ordered string-keyed mapping, as a Python
dict of strings. -/
abbrev Params := List (String × String)

/-- Python dict assignment `d[k] = v`: overwrite the existing entry in place,
or append a new one (insertion order preserved). -/
def dictInsert (k v : String) : Params → Params
  | [] => [(k, v)]
  | (k', v') :: rest => if k' == k then (k, v) :: rest else (k', v') :: dictInsert k v rest

/-- Python dict lookup `d.get(k)` on string params. -/
def dictLookup (k : String) (d : Params) : Option String :=
  (d.find? (fun p => p.1 == k)).map (·.2)

/-- Removal of a key, used to express "the same upstream behaviour modulo the
credential parameter". -/
def dictRemove (k : String) (d : Params) : Params :=
  d.filter (fun p => p.1 != k)

/-- A Python number as parsed from JSON: an `int`, or a `float` written as the
exact decimal `m / 10 ^ e`. -/
inductive PyNum where
  | int (n : ℤ)
  | dec (m : ℤ) (e : Nat)
deriving DecidableEq

/-- JSON-like values as delivered by `response.json()`. -/
inductive Json where
  | null
  | bool (b : Bool)
  | num (p : PyNum)
  | str (s : String)
  | arr (elems : List Json)
  | obj (fields : List (String × Json))

/-- `d.get(k)` on a JSON value: `none` when the value is not an object or the
key is missing (Python returns `None`). -/
def Json.dget : Json → String → Option Json
  | .obj fs, k => (fs.find? (fun p => p.1 == k)).map (·.2)
  | _, _ => none

/-- The mantissa of a number (zero iff the number is zero). -/
def PyNum.mant : PyNum → ℤ
  | .int n => n
  | .dec m _ => m

/-- Python multiplication of two numbers (`int * int` stays `int`, anything
involving a `float` is a `float`). -/
def PyNum.mul : PyNum → PyNum → PyNum
  | .int a, .int b => .int (a * b)
  | .int a, .dec m e => .dec (a * m) e
  | .dec m e, .int b => .dec (m * b) e
  | .dec m₁ e₁, .dec m₂ e₂ => .dec (m₁ * m₂) (e₁ + e₂)

/-- Python truthiness of a JSON value. -/
def Json.isTruthy : Json → Bool
  | .null => false
  | .bool b => b
  | .num p => p.mant != 0
  | .str s => s != ""
  | .arr xs => !xs.isEmpty
  | .obj fs => !fs.isEmpty

/-- Truthiness of `d.get(k)` (Python `None` is falsy). -/
def Json.getTruthy (j : Json) (k : String) : Bool :=
  match j.dget k with
  | none => false
  | some v => v.isTruthy

/-- Python `d[k]` on a JSON object: raises `KeyError` when missing. -/
def Json.index (j : Json) (k : String) : Except String Json :=
  match j with
  | .obj _ =>
    match j.dget k with
    | some v => .ok v
    | none => .error ("KeyError: " ++ k)
  | _ => .error ("TypeError: not subscriptable: " ++ k)

/-- Python `xs[i]` on a JSON list: raises `IndexError` when out of range. -/
def Json.item (j : Json) (i : Nat) : Except String Json :=
  match j with
  | .arr xs =>
    match xs.get? i with
    | some v => .ok v
    | none => .error "IndexError: list index out of range"
  | _ => .error "TypeError: not a list"

/-- Iterating a JSON value as a Python list (the source only ever iterates
JSON arrays). -/
def Json.asArr : Json → Except String (List Json)
  | .arr xs => .ok xs
  | _ => .error "TypeError: not iterable"

/-- A JSON value usable where Python needs a number (`:.2f`, arithmetic);
Python `bool` is an `int`. -/
def Json.asNum : Json → Except String PyNum
  | .num p => .ok p
  | .bool b => .ok (.int (if b then 1 else 0))
  | _ => .error "TypeError: not a number"

/-- Python `v == "someString"`: `False` (not an error) when `v` is not a
string. -/
def Json.eqStr : Json → String → Bool
  | .str s, t => s == t
  | _, _ => false

/-- Python `d.get(k) == t` for a string literal `t`. -/
def pyEqStr (v : Option Json) (t : String) : Bool :=
  match v with
  | some j => j.eqStr t
  | none => false

/-- Left-pad a numeral string with zeros to the given length. -/
def padZeros (l : Nat) (s : String) : String :=
  String.mk (List.replicate (l - s.length) '0') ++ s

/-- Strip trailing decimal zeros of a float's mantissa, keeping at least one
digit after the decimal point (Python `str(5.0) = "5.0"`). -/
def decStrip : ℤ → Nat → ℤ × Nat
  | m, 0 => (m, 0)
  | m, 1 => (m, 1)
  | m, e + 2 => if m % 10 = 0 then decStrip (m / 10) (e + 1) else (m, e + 2)

/-- Python `str()` of a number: integers without a decimal point, floats as
their shortest decimal expansion (always with at least one digit after the
point). -/
def pyNumStr : PyNum → String
  | .int n => toString n
  | .dec m e =>
    let p := decStrip m e
    if p.2 = 0 then toString p.1 ++ ".0"
    else
      (if p.1 < 0 then "-" else "") ++ toString (p.1.natAbs / 10 ^ p.2) ++ "." ++
        padZeros p.2 (toString (p.1.natAbs % 10 ^ p.2))

/-- `⌊m / 10 ^ k + 1 / 2⌋`: the integer nearest `m / 10 ^ k`, ties upward. -/
def roundHalfUpDiv (m : ℤ) (k : Nat) : ℤ :=
  Int.fdiv (2 * m + 10 ^ k) (2 * 10 ^ k)

/-- The value of a number in hundredths, rounded to the nearest integer
(Python's `:.2f` rounding; ties are modelled half-up — CPython breaks exact
decimal ties by the binary double's value, which the values this program
formats do not exercise). -/
def PyNum.hundredths : PyNum → ℤ
  | .int n => n * 100
  | .dec m e => if e ≤ 2 then m * 10 ^ (2 - e) else roundHalfUpDiv m (e - 2)

/-- Model of Python's `:.2f` format specifier: round to the nearest hundredth
and print with exactly two digits after the decimal point. -/
def fix2 (x : PyNum) : String :=
  let n := x.hundredths
  let a := n.natAbs
  (if n < 0 then "-" else "") ++ toString (a / 100) ++ "." ++
    String.mk [Nat.digitChar (a % 100 / 10), Nat.digitChar (a % 100 % 10)]

/-- The literal `3.28084` of `get_elevation` (line 277). -/
def feetFactor : PyNum := .dec 328084 5

/-- Python `str.title()`: first letter of each alphabetic run uppercased, the
rest lowercased. -/
def pyTitleGo : Bool → List Char → List Char
  | _, [] => []
  | prevAlpha, c :: cs =>
    (if c.isAlpha then (if prevAlpha then c.toLower else c.toUpper) else c) ::
      pyTitleGo c.isAlpha cs

/-- Python `str.title()`. -/
def pyTitle (s : String) : String :=
  String.mk (pyTitleGo false s.data)

mutual
/-- Python `repr()` of a JSON value. -/
def Json.pyRepr : Json → String
  | .null => "None"
  | .bool b => if b then "True" else "False"
  | .num p => pyNumStr p
  | .str s => "\x27" ++ s ++ "\x27"
  | .arr xs => "[" ++ String.intercalate ", " (pyReprList xs) ++ "]"
  | .obj fs => "\x7b" ++ String.intercalate ", " (pyReprFields fs) ++ "\x7d"

/-- `repr` of each element of a JSON array. -/
def pyReprList : List Json → List String
  | [] => []
  | x :: xs => x.pyRepr :: pyReprList xs

/-- `repr` of each key/value pair of a JSON object. -/
def pyReprFields : List (String × Json) → List String
  | [] => []
  | (k, v) :: fs => ("\x27" ++ k ++ "\x27: " ++ v.pyRepr) :: pyReprFields fs
end

/-- Python `str()` of a JSON value (used by f-string interpolation): strings
verbatim, `None`/`True`/`False`, numbers via `pyNumStr`, containers via their
repr. -/
def Json.pyStr : Json → String
  | .str s => s
  | j => j.pyRepr

/-- `place.get(k, default)` rendered by an f-string: the stored value's `str`
when present, the (string) default otherwise. -/
def jGetD (j : Json) (k : String) (dflt : String) : String :=
  match j.dget k with
  | some v => v.pyStr
  | none => dflt

/-- Python `sep.join(v)`: joins a list of strings (raising `TypeError` on a
non-string element) or the characters of a string. -/
def pyJoinStrList (sep : String) : Json → Except String String
  | .arr xs => do
    let strs ← xs.mapM (fun j => match j with
      | .str s => Except.ok s
      | _ => Except.error "TypeError: sequence item: expected str instance")
    .ok (String.intercalate sep strs)
  | .str s => .ok (String.intercalate sep (s.data.map (fun c => String.mk [c])))
  | _ => .error "TypeError: can only join an iterable"

/-- Python list/str slice `v[:n]`, producing the list of iterated elements
(characters of a string iterate as 1-character strings). -/
def pySliceList (j : Json) (n : Nat) : Except String (List Json)
  :=
  match j with
  | .arr xs => .ok (xs.take n)
  | .str s => .ok ((s.data.take n).map (fun c => Json.str (String.mk [c])))
  | _ => .error "TypeError: not subscriptable"

/-- Python string slice `s[:n]`. -/
def pyTake (n : Nat) (s : String) : String :=
  String.mk (s.data.take n)

/-- Python `str.replace(pat, rep)` on character lists: replace every
occurrence of `pat`, leftmost first, non-overlapping. Structural fuel (one
unit per consumed character; since a non-empty match consumes at least one
character, fuel `s.length` is exact). Out of fuel the rest is kept
unchanged. -/
def replaceAllGo (pat rep : List Char) : Nat → List Char → List Char
  | _, [] => []
  | 0, s => s
  | fuel + 1, c :: rest =>
    if pat ≠ [] ∧ pat.isPrefixOf (c :: rest) then
      rep ++ replaceAllGo pat rep fuel ((c :: rest).drop pat.length)
    else
      c :: replaceAllGo pat rep fuel rest

/-- Python `str.replace(pat, rep)` on character lists. -/
def replaceAll (pat rep s : List Char) : List Char :=
  replaceAllGo pat rep s.length s

/-- Python `str.replace` on strings. -/
def pyReplace (s pat rep : String) : String :=
  String.mk (replaceAll pat.data rep.data s.data)

/-- The HTML-stripping expression of `get_directions` (line 205):
`.replace("<b>", "").replace("</b>", "").replace("<div>", " ").replace("</div>", "")`. -/
def stripHtml (s : String) : String :=
  pyReplace (pyReplace (pyReplace (pyReplace s "<b>" "") "</b>" "") "<div>" " ") "</div>" ""

/-- `pat` occurs verbatim inside `hay`. -/
def strContains (hay pat : String) : Prop :=
  ∃ a b : String, hay = a ++ pat ++ b

/-! ## The Request Gateway (`make_google_request`, lines 17-36) -/

/-- The outcome of the underlying HTTP GET, an environment parameter:
either the transport raised (`netError`, carrying the exception's message —
for a real HTTP client this message may embed the request URL), or a response
arrived with an HTTP `status`, the message `raise_for_status()` would raise
for it, and the parsed JSON `body`. -/
inductive HttpResult where
  | netError (msg : String)
  | response (status : Nat) (statusErrMsg : String) (body : Json)

/-- The HTTP transport as seen by the gateway. -/
abbrev Net := String → Params → HttpResult

/-- What the gateway hands back: the normalized payload (`none` on any
failure path), the diagnostic log lines it printed, and the parameter
mapping as mutated in place (credential inserted under `"key"`). -/
structure GatewayOut where
  data : Option Json
  logs : List String
  sent : Params

/-- The diagnostic line of line 30:
`data.get('error_message', data.get('status'))`. -/
def statusLog (body : Json) : String :=
  "Google Maps API error: " ++
    (match body.dget "error_message" with
     | some v => v.pyStr
     | none =>
       match body.dget "status" with
       | some v => v.pyStr
       | none => "None")

/-- `make_google_request` (lines 17-36): insert the credential into `params`
under `"key"`, issue the GET, raise on a non-2xx status, and demand the
payload's `"status"` field be `"OK"`; every failure path is caught and
normalized to an absent payload plus a printed diagnostic. -/
def make_google_request (key : String) (net : Net) (endpoint : String)
    (params : Params) : GatewayOut :=
  let params := dictInsert "key" key params
  match net endpoint params with
  | .netError e => ⟨none, ["Request failed: " ++ e], params⟩
  | .response status statusErrMsg body =>
    if 200 ≤ status ∧ status < 300 then
      if pyEqStr (body.dget "status") "OK" then ⟨some body, [], params⟩
      else ⟨none, [statusLog body], params⟩
    else ⟨none, ["Request failed: " ++ statusErrMsg], params⟩

/-- The observable behaviour of one tool invocation: its text result (or the
modelled exception), the gateway invocations it performed (endpoint and the
caller-built params), and the diagnostic log lines. -/
structure ToolRun where
  result : Except String String
  calls : List (String × Params)
  logs : List String

/-- The shared failure test `not data or not data.get(k)` of every
operation. -/
def absentOrFalsy (data : Option Json) (k : String) : Bool :=
  match data with
  | none => true
  | some d => !d.isTruthy || !(d.getTruthy k)

/-! ## `geocode_address` (lines 38-58) -/

/-- Rendering of `geocode_address` from the gateway payload (lines 48-58). -/
def geocodeRender (data : Option Json) : Except String String :=
  if absentOrFalsy data "results" then .ok "Unable to geocode the provided address."
  else do
    let d := data.getD .null
    let result ← d.index "results" >>= (·.item 0)
    let location ← result.index "geometry" >>= (·.index "location")
    let fa ← result.index "formatted_address"
    let lat ← location.index "lat"
    let lng ← location.index "lng"
    let pid ← result.index "place_id"
    .ok ("\nAddress: " ++ fa.pyStr ++ "\nCoordinates: " ++ lat.pyStr ++ ", " ++
      lng.pyStr ++ "\nPlace ID: " ++ pid.pyStr ++ "\n")

/-- `geocode_address` end to end. -/
def geocode_address (key : String) (net : Net) (address : String) : ToolRun :=
  let params : Params := [("address", address)]
  let g := make_google_request key net "geocode/json" params
  ⟨geocodeRender g.data, [("geocode/json", params)], g.logs⟩

/-! ## `reverse_geocode` (lines 60-80) -/

/-- Rendering of `reverse_geocode` (lines 71-80). -/
def reverseGeocodeRender (latitude longitude : PyNum) (data : Option Json) :
    Except String String :=
  if absentOrFalsy data "results" then
    .ok "Unable to reverse geocode the provided coordinates."
  else do
    let d := data.getD .null
    let result ← d.index "results" >>= (·.item 0)
    let fa ← result.index "formatted_address"
    let pid ← result.index "place_id"
    .ok ("\nFormatted Address: " ++ fa.pyStr ++ "\nPlace ID: " ++ pid.pyStr ++
      "\nCoordinates: " ++ pyNumStr latitude ++ ", " ++ pyNumStr longitude ++ "\n")

/-- `reverse_geocode` end to end. -/
def reverse_geocode (key : String) (net : Net) (latitude longitude : PyNum) : ToolRun :=
  let params : Params := [("latlng", pyNumStr latitude ++ "," ++ pyNumStr longitude)]
  let g := make_google_request key net "geocode/json" params
  ⟨reverseGeocodeRender latitude longitude g.data, [("geocode/json", params)], g.logs⟩

/-! ## `search_places` (lines 82-118) -/

/-- One place block of `search_places` (lines 109-115). -/
def placeInfo (place : Json) : Except String String := do
  let name ← place.index "name"
  let types ←
    match place.dget "types" with
    | some v => pyJoinStrList ", " v
    | none => pyJoinStrList ", " (.arr [])
  let pid ← place.index "place_id"
  .ok ("\nName: " ++ name.pyStr ++
    "\nAddress: " ++ jGetD place "formatted_address" "Address not available" ++
    "\nRating: " ++ jGetD place "rating" "No rating" ++ " stars" ++
    "\nTypes: " ++ types ++
    "\nPlace ID: " ++ pid.pyStr ++ "\n")

/-- Rendering of `search_places` (lines 104-118). -/
def searchPlacesRender (data : Option Json) : Except String String :=
  if absentOrFalsy data "results" then .ok "No places found for the search query."
  else do
    let d := data.getD .null
    let results ← d.index "results"
    let firstFive ← pySliceList results 5
    let places ← firstFive.mapM placeInfo
    .ok (String.intercalate "\n---\n" places)

/-- `search_places` end to end; `location`/`radius` are optional and are added
to the params only when truthy (lines 95-100). -/
def search_places (key : String) (net : Net) (query : String)
    (location : Option String) (radius : Option ℤ) : ToolRun :=
  let params : Params := [("query", query)]
  let params :=
    match location with
    | some l => if l == "" then params else dictInsert "location" l params
    | none => params
  let params :=
    match radius with
    | some r => if r == 0 then params else dictInsert "radius" (toString r) params
    | none => params
  let g := make_google_request key net "place/textsearch/json" params
  ⟨searchPlacesRender g.data, [("place/textsearch/json", params)], g.logs⟩

/-! ## `get_place_details` (lines 120-162) -/

/-- The review loop of `get_place_details` (lines 157-160): author, rating,
text truncated to 200 characters with `"..."` appended. -/
def reviewLoop (acc : String) : List Json → Except String String
  | [] => .ok acc
  | review :: rest => do
    let author ← review.index "author_name"
    let rating ← review.index "rating"
    let text ← review.index "text"
    let sliced ← pySliceList text 200
    let textStr ←
      match text with
      | .str s => Except.ok (pyTake 200 s)
      | _ => Except.ok (Json.pyStr (.arr sliced))
    reviewLoop (acc ++ "\n- " ++ author.pyStr ++ " (" ++ rating.pyStr ++
      " stars): " ++ textStr ++ "...\n") rest

/-- Rendering of `get_place_details` (lines 134-162). -/
def placeDetailsRender (data : Option Json) : Except String String :=
  if absentOrFalsy data "result" then .ok "Unable to fetch place details."
  else do
    let d := data.getD .null
    let place ← d.index "result"
    let details :=
      "\nName: " ++ jGetD place "name" "Unknown" ++
      "\nAddress: " ++ jGetD place "formatted_address" "Address not available" ++
      "\nPhone: " ++ jGetD place "formatted_phone_number" "Phone not available" ++
      "\nWebsite: " ++ jGetD place "website" "Website not available" ++
      "\nRating: " ++ jGetD place "rating" "No rating" ++ " stars\n"
    let details ←
      if place.getTruthy "opening_hours" then do
        let hours ← place.index "opening_hours"
        let details ←
          if hours.getTruthy "weekday_text" then do
            let wt ← hours.index "weekday_text"
            let joined ← pyJoinStrList "\n" wt
            Except.ok (details ++ "\nOpening Hours:\n" ++ joined)
          else Except.ok details
        Except.ok (details ++ "\nCurrently Open: " ++
          (if hours.getTruthy "open_now" then "Yes" else "No"))
      else Except.ok details
    let details ←
      if place.getTruthy "reviews" then do
        let revs ← place.index "reviews"
        let firstThree ← pySliceList revs 3
        reviewLoop (details ++ "\n\nRecent Reviews:") firstThree
      else Except.ok details
    .ok details

/-- The `fields` literal of line 129. -/
def placeDetailsFields : String :=
  "name,formatted_address,formatted_phone_number,website,rating,reviews,opening_hours,geometry"

/-- `get_place_details` end to end. -/
def get_place_details (key : String) (net : Net) (place_id : String) : ToolRun :=
  let params : Params := [("place_id", place_id), ("fields", placeDetailsFields)]
  let g := make_google_request key net "place/details/json" params
  ⟨placeDetailsRender g.data, [("place/details/json", params)], g.logs⟩

/-! ## `get_directions` (lines 164-208) -/

/-- The step loop of `get_directions` (lines 203-206), numbering from `i`:
HTML tags stripped via `stripHtml`, plus per-step distance/duration. -/
def dirStepsLoop (i : Nat) (acc : String) : List Json → Except String String
  | [] => .ok acc
  | step :: rest => do
    let instrJ ← step.index "html_instructions"
    let instr ←
      match instrJ with
      | .str s => Except.ok (stripHtml s)
      | _ => Except.error "AttributeError: replace"
    let dist ← step.index "distance" >>= (·.index "text")
    let dur ← step.index "duration" >>= (·.index "text")
    dirStepsLoop (i + 1)
      (acc ++ toString i ++ ". " ++ instr ++ " (" ++ dist.pyStr ++ ", " ++
        dur.pyStr ++ ")\n") rest

/-- The allowed travel modes (lines 177 and 223). -/
def validModes : List String := ["driving", "walking", "bicycling", "transit"]

/-- The invalid-mode message (lines 178 and 224). -/
def invalidModeMsg : String :=
  "Invalid travel mode. Use: driving, walking, bicycling, or transit"

/-- Rendering of `get_directions` (lines 188-208). -/
def directionsRender (mode : String) (data : Option Json) : Except String String :=
  if absentOrFalsy data "routes" then
    .ok "Unable to find directions for the specified route."
  else do
    let d := data.getD .null
    let route ← d.index "routes" >>= (·.item 0)
    let leg ← route.index "legs" >>= (·.item 0)
    let dist ← leg.index "distance" >>= (·.index "text")
    let dur ← leg.index "duration" >>= (·.index "text")
    let steps ← leg.index "steps"
    let firstTen ← pySliceList steps 10
    dirStepsLoop 1
      ("\nRoute Summary: " ++ jGetD route "summary" "Direct route" ++
       "\nDistance: " ++ dist.pyStr ++
       "\nDuration: " ++ dur.pyStr ++
       "\nTravel Mode: " ++ pyTitle mode ++
       "\n\nTurn-by-Turn Directions:\n") firstTen

/-- `get_directions` end to end: an invalid mode is rejected before any
gateway call. -/
def get_directions (key : String) (net : Net) (origin destination mode : String) :
    ToolRun :=
  if !(validModes.contains mode) then ⟨.ok invalidModeMsg, [], []⟩
  else
    let params : Params := [("origin", origin), ("destination", destination), ("mode", mode)]
    let g := make_google_request key net "directions/json" params
    ⟨directionsRender mode g.data, [("directions/json", params)], g.logs⟩

/-! ## `calculate_distance_matrix` (lines 210-252) -/

/-- One matrix cell (lines 243-248): `data["rows"][i]["elements"][j]`,
`"Route not available"` when its status is not `"OK"`. -/
def dmElemLine (d : Json) (i j : Nat) (dest : Json) : Except String String := do
  let element ← d.index "rows" >>= (·.item i) >>= (·.index "elements") >>= (·.item j)
  let st ← element.index "status"
  if st.eqStr "OK" then do
    let dist ← element.index "distance" >>= (·.index "text")
    let dur ← element.index "duration" >>= (·.index "text")
    .ok ("  To " ++ dest.pyStr ++ ": " ++ dist.pyStr ++ " (" ++ dur.pyStr ++ ")\n")
  else
    .ok ("  To " ++ dest.pyStr ++ ": Route not available\n")

/-- The inner destination loop (lines 242-248). -/
def dmInnerLoop (d : Json) (i : Nat) (j : Nat) (acc : String) :
    List Json → Except String String
  | [] => .ok acc
  | dest :: rest => do
    let line ← dmElemLine d i j dest
    dmInnerLoop d i (j + 1) (acc ++ line) rest

/-- The outer origin loop (lines 239-250). -/
def dmOuterLoop (d : Json) (i : Nat) (acc : String) :
    List Json → Except String String
  | [] => .ok acc
  | origin :: rest => do
    let destAddrs ← d.index "destination_addresses" >>= Json.asArr
    let inner ← dmInnerLoop d i 0 (acc ++ "From: " ++ origin.pyStr ++ "\n") destAddrs
    dmOuterLoop d (i + 1) (inner ++ "\n") rest

/-- Rendering of `calculate_distance_matrix` (lines 234-252). -/
def distanceMatrixRender (mode : String) (data : Option Json) :
    Except String String :=
  if absentOrFalsy data "rows" then .ok "Unable to calculate distance matrix."
  else do
    let d := data.getD .null
    let originAddrs ← d.index "origin_addresses" >>= Json.asArr
    dmOuterLoop d 0 ("Distance Matrix (" ++ pyTitle mode ++ " mode):\n\n") originAddrs

/-- `calculate_distance_matrix` end to end: an invalid mode is rejected before
any gateway call. -/
def calculate_distance_matrix (key : String) (net : Net)
    (origins destinations : List String) (mode : String) : ToolRun :=
  if !(validModes.contains mode) then ⟨.ok invalidModeMsg, [], []⟩
  else
    let params : Params :=
      [("origins", String.intercalate "|" origins),
       ("destinations", String.intercalate "|" destinations),
       ("mode", mode)]
    let g := make_google_request key net "distancematrix/json" params
    ⟨distanceMatrixRender mode g.data, [("distancematrix/json", params)], g.logs⟩

/-! ## `get_elevation` (lines 254-280) -/

/-- Line 263: `[f"{loc['lat']},{loc['lng']}" for loc in locations]` — raises
before any gateway call when a coordinate dict lacks `lat`/`lng`. -/
def buildLocationStrings (locations : List Json) : Except String (List String) :=
  locations.mapM (fun loc => do
    let la ← loc.index "lat"
    let ln ← loc.index "lng"
    Except.ok (la.pyStr ++ "," ++ ln.pyStr))

/-- The result loop of `get_elevation` (lines 274-278). -/
def elevLoop (i : Nat) (acc : String) : List Json → Except String String
  | [] => .ok acc
  | result :: rest => do
    let location ← result.index "location"
    let lat ← location.index "lat"
    let lng ← location.index "lng"
    let elev ← result.index "elevation" >>= Json.asNum
    let elevFeet := PyNum.mul elev feetFactor
    let res ← result.index "resolution" >>= Json.asNum
    elevLoop (i + 1)
      (acc ++ "Location " ++ toString (i + 1) ++ ": " ++ lat.pyStr ++ ", " ++
        lng.pyStr ++ "\n" ++
        "Elevation: " ++ fix2 elev ++ " meters (" ++ fix2 elevFeet ++ " feet)\n" ++
        "Resolution: " ++ fix2 res ++ " meters\n\n") rest

/-- Rendering of `get_elevation` (lines 269-280). -/
def elevationRender (data : Option Json) : Except String String :=
  if absentOrFalsy data "results" then .ok "Unable to fetch elevation data."
  else do
    let d := data.getD .null
    let results ← d.index "results" >>= Json.asArr
    elevLoop 0 "Elevation Data:\n\n" results

/-- `get_elevation` end to end. -/
def get_elevation (key : String) (net : Net) (locations : List Json) : ToolRun :=
  match buildLocationStrings locations with
  | .error e => ⟨.error e, [], []⟩
  | .ok strs =>
    let params : Params := [("locations", String.intercalate "|" strs)]
    let g := make_google_request key net "elevation/json" params
    ⟨elevationRender g.data, [("elevation/json", params)], g.logs⟩

/-! ## Concrete payloads and expected reports used by the theorems -/

/-- The mocked upstream payload of the end-to-end geocoding scenario. -/
def c9Payload : Json := .obj [
  ("status", .str "OK"),
  ("results", .arr [.obj [
    ("formatted_address", .str "1600 Amphitheatre Parkway, Mountain View, CA, USA"),
    ("geometry", .obj [("location", .obj [
      ("lat", .num (.dec 374224764 7)),
      ("lng", .num (.dec (-1220842499) 7))])]),
    ("place_id", .str "ChIJ2eUgeAK6j4ARbn5u_wAGqWA")]])]

/-- The report the scenario produces. -/
def c9Report : String :=
  "\nAddress: 1600 Amphitheatre Parkway, Mountain View, CA, USA\nCoordinates: 37.4224764, -122.0842499\nPlace ID: ChIJ2eUgeAK6j4ARbn5u_wAGqWA\n"

/-- A directions step record: html instructions, distance text, duration
text. -/
def mkStep (s : String × String × String) : Json :=
  .obj [
    ("html_instructions", .str s.1),
    ("distance", .obj [("text", .str s.2.1)]),
    ("duration", .obj [("text", .str s.2.2)])]

/-- A directions payload: a first route (summary, one first leg with
distance/duration texts and the given steps) followed by arbitrary further
routes and legs. -/
def mkDirPayload (summary dist dur : String) (steps : List (String × String × String))
    (moreRoutes moreLegs : List Json) : Json :=
  .obj [
    ("status", .str "OK"),
    ("routes", .arr (.obj [
      ("summary", .str summary),
      ("legs", .arr (.obj [
        ("distance", .obj [("text", .str dist)]),
        ("duration", .obj [("text", .str dur)]),
        ("steps", .arr (steps.map mkStep))] :: moreLegs))] :: moreRoutes))]

/-- The expected rendering of the steps, numbered from `i`. -/
def dirExpectedSteps (i : Nat) : List (String × String × String) → String
  | [] => ""
  | s :: rest =>
    toString i ++ ". " ++ stripHtml s.1 ++ " (" ++ s.2.1 ++ ", " ++ s.2.2 ++ ")\n" ++
      dirExpectedSteps (i + 1) rest

/-- The expected directions header. -/
def dirExpectedHeader (mode summary dist dur : String) : String :=
  "\nRoute Summary: " ++ summary ++ "\nDistance: " ++ dist ++ "\nDuration: " ++ dur ++
    "\nTravel Mode: " ++ pyTitle mode ++ "\n\nTurn-by-Turn Directions:\n"

/-- A review record: author name, rating (any JSON value), text. -/
def mkReview (r : String × Json × String) : Json :=
  .obj [("author_name", .str r.1), ("rating", r.2.1), ("text", .str r.2.2)]

/-- A place-details payload whose result record carries only a reviews
list. -/
def mkReviewsPayload (reviews : List (String × Json × String)) : Json :=
  .obj [("status", .str "OK"),
        ("result", .obj [("reviews", .arr (reviews.map mkReview))])]

/-- The place-details base block when every optional field is absent. -/
def pdPlaceholderBase : String :=
  "\nName: Unknown\nAddress: Address not available\nPhone: Phone not available\nWebsite: Website not available\nRating: No rating stars\n"

/-- The expected rendering of one review. -/
def revBlock (r : String × Json × String) : String :=
  "\n- " ++ r.1 ++ " (" ++ r.2.1.pyStr ++ " stars): " ++ pyTake 200 r.2.2 ++ "...\n"

/-- The expected rendering of a review list. -/
def reviewsExpected : List (String × Json × String) → String
  | [] => ""
  | r :: rs => revBlock r ++ reviewsExpected rs

/-- One origin-destination cell of a distance matrix: either an available
route with distance/duration texts, or a blocked pair with its non-`"OK"`
status. -/
inductive DMEntry where
  | avail (dist dur : String)
  | blocked (st : String)

/-- The JSON element of a cell. -/
def mkDMElem : DMEntry → Json
  | .avail dist dur =>
    .obj [("status", .str "OK"),
          ("distance", .obj [("text", .str dist)]),
          ("duration", .obj [("text", .str dur)])]
  | .blocked st => .obj [("status", .str st)]

/-- The row record of one origin. -/
def mkDMRow (row : String × List DMEntry) : Json :=
  .obj [("elements", .arr (row.2.map mkDMElem))]

/-- A distance-matrix payload for the given origins (each with its row of
cells) and destination addresses. -/
def mkDMPayload (origins : List (String × List DMEntry)) (dests : List String) : Json :=
  .obj [
    ("status", .str "OK"),
    ("origin_addresses", .arr (origins.map (fun o => .str o.1))),
    ("destination_addresses", .arr (dests.map Json.str)),
    ("rows", .arr (origins.map mkDMRow))]

/-- The expected line of one cell. -/
def dmEntryText (dst : String) : DMEntry → String
  | .avail dist dur => "  To " ++ dst ++ ": " ++ dist ++ " (" ++ dur ++ ")\n"
  | .blocked _ => "  To " ++ dst ++ ": Route not available\n"

/-- The expected lines of one origin's row. -/
def dmRowText : List (String × DMEntry) → String
  | [] => ""
  | p :: rest => dmEntryText p.1 p.2 ++ dmRowText rest

/-- The expected blocks of all origins. -/
def dmBlocks (dests : List String) : List (String × List DMEntry) → String
  | [] => ""
  | o :: rest => "From: " ++ o.1 ++ "\n" ++ dmRowText (dests.zip o.2) ++ "\n" ++ dmBlocks dests rest

/-- The expected distance-matrix report. -/
def dmExpected (mode : String) (origins : List (String × List DMEntry))
    (dests : List String) : String :=
  "Distance Matrix (" ++ pyTitle mode ++ " mode):\n\n" ++ dmBlocks dests origins

/-- A cell's status is honest: a `blocked` entry does not carry `"OK"`. -/
def DMEntry.okStatused : DMEntry → Bool
  | .blocked st => st != "OK"
  | .avail _ _ => true

/-- No cell of the matrix carries the status `"OK"` in a `blocked` entry. -/
def dmWellStatused (origins : List (String × List DMEntry)) : Prop :=
  ∀ o ∈ origins, ∀ e ∈ o.2, e.okStatused = true

/-- An elevation result record: location lat/lng (any JSON values), elevation
and resolution (numbers). -/
def mkElevRec (r : Json × Json × PyNum × PyNum) : Json :=
  .obj [
    ("location", .obj [("lat", r.1), ("lng", r.2.1)]),
    ("elevation", .num r.2.2.1),
    ("resolution", .num r.2.2.2)]

/-- An elevation payload for the given records. -/
def mkElevPayload (recs : List (Json × Json × PyNum × PyNum)) : Json :=
  .obj [("status", .str "OK"), ("results", .arr (recs.map mkElevRec))]

/-- The expected elevation blocks, numbered from `i + 1`. -/
def elevExpected (i : Nat) : List (Json × Json × PyNum × PyNum) → String
  | [] => ""
  | r :: rest =>
    "Location " ++ toString (i + 1) ++ ": " ++ r.1.pyStr ++ ", " ++ r.2.1.pyStr ++ "\n" ++
      "Elevation: " ++ fix2 r.2.2.1 ++ " meters (" ++ fix2 (PyNum.mul r.2.2.1 feetFactor) ++
      " feet)\n" ++ "Resolution: " ++ fix2 r.2.2.2 ++ " meters\n\n" ++ elevExpected (i + 1) rest

/-- An HTTP environment whose behaviour does not depend on the credential
parameter: two runs against it that differ only in the credential receive
identical responses. -/
def keyBlind (f : String → Params → HttpResult) : Net :=
  fun ep ps => f ep (dictRemove "key" ps)

/-! ## Helper lemmas -/

/-- A JSON value with a readable field is a non-empty object, hence truthy. -/
theorem dget_some_isTruthy (d : Json) (k : String) (v : Json)
    (h : d.dget k = some v) : d.isTruthy = true := by
  cases d with
  | obj fs =>
    cases fs with
    | nil => simp [Json.dget] at h
    | cons p rest => simp [Json.isTruthy]
  | null => simp [Json.dget] at h
  | bool b => simp [Json.dget] at h
  | num p => simp [Json.dget] at h
  | str s => simp [Json.dget] at h
  | arr xs => simp [Json.dget] at h

/-- If dropping `j` elements of `l` exposes `e :: rest`, the `j`-th element of
`l` is `e`. -/
theorem get?_of_drop_eq {α : Type} (l : List α) (j : Nat) (e : α) (rest : List α)
    (h : l.drop j = e :: rest) : l.get? j = some e := by
  have hh := List.head?_drop l j
  rw [h] at hh
  simpa using hh.symm

/-- If dropping `j` elements of `l` exposes `e :: rest`, dropping one more
gives `rest`. -/
theorem drop_succ_of_drop_eq {α : Type} (l : List α) (j : Nat) (e : α) (rest : List α)
    (h : l.drop j = e :: rest) : l.drop (j + 1) = rest := by
  have hh := List.tail_drop l j
  rw [h] at hh
  simpa using hh.symm

/-- `replaceAllGo` leaves a string without any occurrence of the (non-empty)
pattern unchanged, for every fuel. -/
theorem replaceAllGo_no_occurrence (pat rep : List Char) (hne : pat ≠ []) :
    ∀ (fuel : Nat) (s : List Char), ¬ pat <:+: s → replaceAllGo pat rep fuel s = s := by
  intro fuel
  induction fuel with
  | zero => intro s _; cases s <;> rfl
  | succ n ih =>
    intro s hinf
    cases s with
    | nil => rfl
    | cons c rest =>
      have hpre : ¬ pat.isPrefixOf (c :: rest) := by
        intro hp
        exact hinf (List.IsPrefix.isInfix (List.isPrefixOf_iff_prefix.mp hp))
      have hcond : ¬ (pat ≠ [] ∧ pat.isPrefixOf (c :: rest)) := by
        intro hc
        exact hpre hc.2
      have hrest : ¬ pat <:+: rest := fun hr => hinf (List.infix_cons hr)
      simp only [replaceAllGo, if_neg hcond]
      rw [ih rest hrest]

/-- `pyReplace` leaves a string not containing the non-empty pattern
unchanged. -/
theorem pyReplace_no_occurrence (s pat rep : String) (hne : pat.data ≠ [])
    (h : ¬ pat.data <:+: s.data) : pyReplace s pat rep = s := by
  unfold pyReplace replaceAll
  rw [replaceAllGo_no_occurrence pat.data rep.data hne s.data.length s.data h]

/-- A string containing none of the four tag strings is left untouched by the
stripping expression of line 205. -/
theorem stripHtml_of_no_tags (s : String)
    (hb : ¬ "<b>".data <:+: s.data) (hcb : ¬ "</b>".data <:+: s.data)
    (hd : ¬ "<div>".data <:+: s.data) (hcd : ¬ "</div>".data <:+: s.data) :
    stripHtml s = s := by
  unfold stripHtml
  rw [pyReplace_no_occurrence s "<b>" "" (by decide) hb,
      pyReplace_no_occurrence s "</b>" "" (by decide) hcb,
      pyReplace_no_occurrence s "<div>" " " (by decide) hd,
      pyReplace_no_occurrence s "</div>" "" (by decide) hcd]

/-- Removing the credential key after the gateway inserted it undoes exactly
the insertion. -/
theorem dictRemove_dictInsert (k v : String) (d : Params) :
    dictRemove k (dictInsert k v d) = dictRemove k d := by
  induction d with
  | nil => simp [dictInsert, dictRemove]
  | cons p rest ih =>
    by_cases h : p.1 == k
    · have hk : p.1 = k := by simpa using h
      simp [dictInsert, dictRemove, h, hk, ih]
    · simp only [dictInsert, dictRemove] at *
      rw [if_neg (by simpa using h)]
      simp only [List.filter]
      have hne : (p.1 != k) = true := by simpa using h
      simp [hne, ih]

/-- Against a credential-blind environment, the gateway's payload and logs do
not depend on the credential. -/
theorem mgr_keyBlind (f : String → Params → HttpResult) (k₁ k₂ ep : String)
    (ps : Params) :
    (make_google_request k₁ (keyBlind f) ep ps).data =
      (make_google_request k₂ (keyBlind f) ep ps).data ∧
    (make_google_request k₁ (keyBlind f) ep ps).logs =
      (make_google_request k₂ (keyBlind f) ep ps).logs := by
  have h : ∀ k : String, f ep (dictRemove "key" (dictInsert "key" k ps)) =
      f ep (dictRemove "key" ps) := fun k => by rw [dictRemove_dictInsert]
  unfold make_google_request keyBlind
  simp only [h]
  cases f ep (dictRemove "key" ps) with
  | netError e => exact ⟨rfl, rfl⟩
  | response status msg body =>
    by_cases h : 200 ≤ status ∧ status < 300
    · by_cases h2 : pyEqStr (body.dget "status") "OK" <;> simp [h, h2]
    · simp [h]

/-- Looking up the credential key after insertion gives the credential. -/
theorem dictLookup_dictInsert_self (k v : String) (d : Params) :
    dictLookup k (dictInsert k v d) = some v := by
  induction d with
  | nil => simp [dictInsert, dictLookup]
  | cons p rest ih =>
    by_cases h : p.1 == k
    · simp [dictInsert, h, dictLookup]
    · simp only [dictInsert, dictLookup] at *
      rw [if_neg (by simpa using h)]
      simp [List.find?, h, ih]

/-- Inserting under one key leaves every other key's binding unchanged. -/
theorem dictLookup_dictInsert_ne (k v k' : String) (hne : k' ≠ k) (d : Params) :
    dictLookup k' (dictInsert k v d) = dictLookup k' d := by
  induction d with
  | nil =>
    have h1 : (k == k') = false := by simpa using fun hh => hne hh.symm
    simp [dictInsert, dictLookup, List.find?, h1]
  | cons p rest ih =>
    by_cases h : p.1 == k
    · have hk : p.1 = k := by simpa using h
      simp only [dictInsert, h, if_pos, dictLookup, List.find?]
      have h1 : (k == k') = false := by simpa using fun hh => hne hh.symm
      have h2 : (p.1 == k') = false := by
        rw [hk]
        exact h1
      simp [h1, h2, dictLookup]
    · simp only [dictInsert]
      rw [if_neg (by simpa using h)]
      by_cases hsame : p.1 == k'
      · simp [dictLookup, List.find?, hsame]
      · simp only [dictLookup, List.find?] at *
        simp [hsame, ih]

/-- The review loop renders each constructed review record as its expected
block. -/
theorem reviewLoop_spec (rs : List (String × Json × String)) :
    ∀ acc, reviewLoop acc (rs.map mkReview) = .ok (acc ++ reviewsExpected rs) := by
  induction rs with
  | nil => intro acc; simp [reviewLoop, reviewsExpected, String.append_empty]
  | cons r rest ih =>
    intro acc
    rw [List.map_cons]
    rw [show reviewLoop acc (mkReview r :: rest.map mkReview) =
        reviewLoop (acc ++ "\n- " ++ r.1 ++ " (" ++ r.2.1.pyStr ++ " stars): " ++
          pyTake 200 r.2.2 ++ "...\n") (rest.map mkReview) from rfl]
    rw [ih]
    simp [reviewsExpected, revBlock, String.append_assoc]

/-- The directions step loop renders each constructed step as its expected
numbered line. -/
theorem dirStepsLoop_spec (steps : List (String × String × String)) :
    ∀ i acc, dirStepsLoop i acc (steps.map mkStep) = .ok (acc ++ dirExpectedSteps i steps) := by
  induction steps with
  | nil => intro i acc; simp [dirStepsLoop, dirExpectedSteps, String.append_empty]
  | cons s rest ih =>
    intro i acc
    rw [List.map_cons]
    rw [show dirStepsLoop i acc (mkStep s :: rest.map mkStep) =
        dirStepsLoop (i + 1) (acc ++ toString i ++ ". " ++ stripHtml s.1 ++ " (" ++
          s.2.1 ++ ", " ++ s.2.2 ++ ")\n") (rest.map mkStep) from rfl]
    rw [ih]
    simp [dirExpectedSteps, String.append_assoc]

/-- The elevation loop renders each constructed record as its expected
block. -/
theorem elevLoop_spec (recs : List (Json × Json × PyNum × PyNum)) :
    ∀ i acc, elevLoop i acc (recs.map mkElevRec) = .ok (acc ++ elevExpected i recs) := by
  induction recs with
  | nil => intro i acc; simp [elevLoop, elevExpected, String.append_empty]
  | cons r rest ih =>
    intro i acc
    rw [List.map_cons]
    rw [show elevLoop i acc (mkElevRec r :: rest.map mkElevRec) =
        elevLoop (i + 1) (acc ++ "Location " ++ toString (i + 1) ++ ": " ++
          r.1.pyStr ++ ", " ++ r.2.1.pyStr ++ "\n" ++ "Elevation: " ++ fix2 r.2.2.1 ++
          " meters (" ++ fix2 (PyNum.mul r.2.2.1 feetFactor) ++ " feet)\n" ++
          "Resolution: " ++ fix2 r.2.2.2 ++ " meters\n\n") (rest.map mkElevRec) from rfl]
    rw [ih]
    simp [elevExpected, String.append_assoc]

/-- The inner destination loop of the distance matrix renders, from position
`j` on, one line per remaining destination, using the cells of the row
exposed by `hrow`. -/
theorem dmInnerLoop_spec (d : Json) (i : Nat) (elems0 : List DMEntry)
    (hrow : (d.index "rows" >>= (·.item i) >>= (·.index "elements")) =
      .ok (.arr (elems0.map mkDMElem)))
    (ds : List String) :
    ∀ (ents : List DMEntry) (j : Nat) (acc : String),
      (elems0.map mkDMElem).drop j = ents.map mkDMElem →
      ds.length = ents.length →
      (∀ e ∈ ents, ∀ st, e = DMEntry.blocked st → st ≠ "OK") →
      dmInnerLoop d i j acc (ds.map Json.str) = .ok (acc ++ dmRowText (ds.zip ents)) := by
  induction ds with
  | nil =>
    intro ents j acc hdrop hlen hst
    cases ents with
    | nil => simp [dmInnerLoop, dmRowText, String.append_empty]
    | cons e rest => simp at hlen
  | cons dst ds ih =>
    intro ents j acc hdrop hlen hst
    cases ents with
    | nil => simp at hlen
    | cons e ents =>
      rw [List.map_cons] at hdrop
      have hget : (elems0.map mkDMElem).get? j = some (mkDMElem e) :=
        get?_of_drop_eq _ _ _ _ hdrop
      have hdrop' : (elems0.map mkDMElem).drop (j + 1) = ents.map mkDMElem :=
        drop_succ_of_drop_eq _ _ _ _ hdrop
      have hline : dmElemLine d i j (.str dst) = .ok (dmEntryText dst e) := by
        unfold dmElemLine
        rw [hrow]
        show (Json.item (.arr (elems0.map mkDMElem)) j >>= fun element => _) = _
        simp only [Json.item, hget]
        cases e with
        | avail dist dur => rfl
        | blocked st =>
          have hne : st ≠ "OK" := hst (DMEntry.blocked st) (by simp) st rfl
          have hbeq : (st == "OK") = false := by simpa using hne
          show (if (st == "OK") = true then _ else _ : Except String String) = _
          rw [hbeq]
          simp [dmEntryText, Json.pyStr]
      have hstep : dmInnerLoop d i j acc (Json.str dst :: ds.map Json.str) =
          dmInnerLoop d i (j + 1) (acc ++ dmEntryText dst e) (ds.map Json.str) := by
        simp only [dmInnerLoop]
        rw [hline]
        rfl
      rw [List.map_cons, hstep]
      rw [ih ents (j + 1) (acc ++ dmEntryText dst e) hdrop' (by simpa using hlen)
        (fun e' he' st hbl => hst e' (by simp [he']) st hbl)]
      simp [dmRowText, String.append_assoc, List.zip]

/-- The outer origin loop of the distance matrix renders, from position `i`
on, one `From:` block per remaining origin over the constructed payload. -/
theorem dmOuterLoop_spec (origins0 : List (String × List DMEntry)) (dests : List String)
    (os : List (String × List DMEntry)) :
    ∀ (i : Nat) (acc : String),
      (origins0.map mkDMRow).drop i = os.map mkDMRow →
      (∀ o ∈ os, o.2.length = dests.length) →
      (∀ o ∈ os, ∀ e ∈ o.2, ∀ st, e = DMEntry.blocked st → st ≠ "OK") →
      dmOuterLoop (mkDMPayload origins0 dests) i acc (os.map (fun o => Json.str o.1)) =
        .ok (acc ++ dmBlocks dests os) := by
  induction os with
  | nil => intro i acc _ _ _; simp [dmOuterLoop, dmBlocks, String.append_empty]
  | cons o os ih =>
    intro i acc hdrop hlen hst
    rw [List.map_cons] at hdrop
    have hget : (origins0.map mkDMRow).get? i = some (mkDMRow o) :=
      get?_of_drop_eq _ _ _ _ hdrop
    have hdrop' : (origins0.map mkDMRow).drop (i + 1) = os.map mkDMRow :=
      drop_succ_of_drop_eq _ _ _ _ hdrop
    have hrow : ((mkDMPayload origins0 dests).index "rows" >>= (·.item i) >>=
        (·.index "elements")) = .ok (.arr (o.2.map mkDMElem)) := by
      show (Json.item (.arr (origins0.map mkDMRow)) i >>= fun x => x.index "elements") = _
      simp only [Json.item, hget]
      rfl
    have hinner := dmInnerLoop_spec (mkDMPayload origins0 dests) i o.2 hrow dests o.2 0
      (acc ++ "From: " ++ o.1 ++ "\n") rfl (hlen o (by simp)).symm
      (fun e he st hbl => hst o (by simp) e he st hbl)
    have hstep : dmOuterLoop (mkDMPayload origins0 dests) i acc
        (Json.str o.1 :: os.map (fun o => Json.str o.1)) =
        (dmInnerLoop (mkDMPayload origins0 dests) i 0 (acc ++ "From: " ++ o.1 ++ "\n")
          (dests.map Json.str) >>= fun inner =>
          dmOuterLoop (mkDMPayload origins0 dests) (i + 1) (inner ++ "\n")
            (os.map (fun o => Json.str o.1))) := rfl
    rw [List.map_cons, hstep, hinner]
    show dmOuterLoop (mkDMPayload origins0 dests) (i + 1)
      ((acc ++ "From: " ++ o.1 ++ "\n" ++ dmRowText (dests.zip o.2)) ++ "\n")
      (os.map (fun o => Json.str o.1)) = _
    rw [ih (i + 1) _ hdrop' (fun o' ho' => hlen o' (by simp [ho']))
      (fun o' ho' e he st hbl => hst o' (by simp [ho']) e he st hbl)]
    simp [dmBlocks, String.append_assoc]

/-- A digit character for a value below ten. -/
theorem digitChar_isDigit (n : Nat) (h : n < 10) : (Nat.digitChar n).isDigit = true := by
  interval_cases n <;> decide

/-! ## The claims -/

/-- C9: geocoding "1600 Amphitheatre Parkway, Mountain View, CA" against a
mocked upstream returning one result with the given formatted address,
coordinates and place id produces a report containing all three values
verbatim. -/
theorem claim_C9_geocode_scenario :
    (geocode_address "testkey" (fun _ _ => .response 200 "" c9Payload)
      "1600 Amphitheatre Parkway, Mountain View, CA").result = .ok c9Report ∧
    strContains c9Report "1600 Amphitheatre Parkway, Mountain View, CA, USA" ∧
    strContains c9Report "37.4224764" ∧
    strContains c9Report "-122.0842499" ∧
    strContains c9Report "ChIJ2eUgeAK6j4ARbn5u_wAGqWA" :=
  ⟨rfl,
   ⟨"\nAddress: ",
    "\nCoordinates: 37.4224764, -122.0842499\nPlace ID: ChIJ2eUgeAK6j4ARbn5u_wAGqWA\n",
    by rfl⟩,
   ⟨"\nAddress: 1600 Amphitheatre Parkway, Mountain View, CA, USA\nCoordinates: ",
    ", -122.0842499\nPlace ID: ChIJ2eUgeAK6j4ARbn5u_wAGqWA\n", by rfl⟩,
   ⟨"\nAddress: 1600 Amphitheatre Parkway, Mountain View, CA, USA\nCoordinates: 37.4224764, ",
    "\nPlace ID: ChIJ2eUgeAK6j4ARbn5u_wAGqWA\n", by rfl⟩,
   ⟨"\nAddress: 1600 Amphitheatre Parkway, Mountain View, CA, USA\nCoordinates: 37.4224764, -122.0842499\nPlace ID: ",
    "\n", by rfl⟩⟩

/-- C3: for `get_directions` and `calculate_distance_matrix`, a mode outside
the four valid travel modes yields the invalid-mode text immediately, with
zero gateway invocations. -/
theorem claim_C3_invalid_mode_no_gateway (key : String) (net : Net)
    (origin destination mode : String) (origins destinations : List String)
    (h : mode ∉ validModes) :
    (get_directions key net origin destination mode).result = .ok invalidModeMsg ∧
    (get_directions key net origin destination mode).calls = [] ∧
    (calculate_distance_matrix key net origins destinations mode).result =
      .ok invalidModeMsg ∧
    (calculate_distance_matrix key net origins destinations mode).calls = [] := by
  have hb : validModes.contains mode = false := by simpa using h
  refine ⟨?_, ?_, ?_, ?_⟩ <;> simp [get_directions, calculate_distance_matrix, hb, h]

/-- Witness for C3 at the concrete mode "flying". -/
theorem claim_C3_witness :
    (get_directions "K" (fun _ _ => .netError "e") "Berlin" "Paris" "flying").result =
      .ok invalidModeMsg ∧
    (calculate_distance_matrix "K" (fun _ _ => .netError "e") ["A"] ["B"] "flying").calls =
      [] := by
  have h := claim_C3_invalid_mode_no_gateway "K" (fun _ _ => .netError "e")
    "Berlin" "Paris" "flying" ["A"] ["B"] (by decide)
  exact ⟨h.1, h.2.2.2⟩

/-- C10: the gateway mutates the caller-supplied params mapping in place,
binding the credential under `"key"`; every other key's binding is
unchanged. -/
theorem claim_C10_params_mutation (key : String) (net : Net) (ep : String)
    (ps : Params) :
    (make_google_request key net ep ps).sent = dictInsert "key" key ps ∧
    dictLookup "key" ((make_google_request key net ep ps).sent) = some key ∧
    (∀ k, k ≠ "key" →
      dictLookup k ((make_google_request key net ep ps).sent) = dictLookup k ps) := by
  have hsent : (make_google_request key net ep ps).sent = dictInsert "key" key ps := by
    rcases hnet : net ep (dictInsert "key" key ps) with e | ⟨status, msg, body⟩
    · simp [make_google_request, hnet]
    · by_cases h1 : 200 ≤ status ∧ status < 300
      · by_cases h2 : pyEqStr (body.dget "status") "OK" <;>
          simp [make_google_request, hnet, h1, h2]
      · simp [make_google_request, hnet, h1]
  refine ⟨hsent, ?_, ?_⟩
  · rw [hsent]; exact dictLookup_dictInsert_self "key" key ps
  · intro k hk; rw [hsent]; exact dictLookup_dictInsert_ne "key" key k hk ps

/-- Witness for C10 at a concrete call. -/
theorem claim_C10_witness :
    dictLookup "address" ((make_google_request "K" (fun _ _ => .netError "e")
      "geocode/json" [("address", "x")]).sent) = some "x" ∧
    dictLookup "key" ((make_google_request "K" (fun _ _ => .netError "e")
      "geocode/json" [("address", "x")]).sent) = some "K" := by
  have h := claim_C10_params_mutation "K" (fun _ _ => .netError "e")
    "geocode/json" [("address", "x")]
  exact ⟨(h.2.2 "address" (by decide)).trans (by rfl), h.2.1⟩

/-- C5 counterexample: the claim says the four tags are *removed* and all
other characters are left untouched, but the code replaces `<div>` with a
space (line 205): on `"Turn<div>left"` the rendered instruction is
`"Turn left"`, not the pure-removal result `"Turnleft"`. -/
theorem claim_C5_counterexample :
    stripHtml "Turn<div>left" = "Turn left" ∧ "Turn left" ≠ "Turnleft" :=
  ⟨by rfl, by decide⟩

/-- C5 (amended): a successful `get_directions` call renders, after the
header, exactly the first 10 steps of the first leg of the first route, each
instruction transformed by `stripHtml` — which removes `<b>`, `</b>` and
`</div>`, replaces `<div>` with a single space, and leaves a string free of
all four tags untouched. -/
theorem claim_C5_directions_rendering (mode summary dist dur : String)
    (steps : List (String × String × String)) (moreRoutes moreLegs : List Json) :
    (directionsRender mode
      (some (mkDirPayload summary dist dur steps moreRoutes moreLegs)) =
      .ok (dirExpectedHeader mode summary dist dur ++ dirExpectedSteps 1 (steps.take 10))) ∧
    (∀ s : String, ¬ "<b>".data <:+: s.data → ¬ "</b>".data <:+: s.data →
      ¬ "<div>".data <:+: s.data → ¬ "</div>".data <:+: s.data → stripHtml s = s) ∧
    stripHtml "<b>x</b><div>y</div>" = "x y" := by
  refine ⟨?_, fun s h1 h2 h3 h4 => stripHtml_of_no_tags s h1 h2 h3 h4, by rfl⟩
  have htake : (steps.map mkStep).take 10 = (steps.take 10).map mkStep :=
    (List.map_take mkStep steps 10).symm
  calc directionsRender mode (some (mkDirPayload summary dist dur steps moreRoutes moreLegs))
      = dirStepsLoop 1 (dirExpectedHeader mode summary dist dur)
          ((steps.map mkStep).take 10) := rfl
    _ = dirStepsLoop 1 (dirExpectedHeader mode summary dist dur)
          ((steps.take 10).map mkStep) := by rw [htake]
    _ = .ok (dirExpectedHeader mode summary dist dur ++ dirExpectedSteps 1 (steps.take 10)) :=
        dirStepsLoop_spec (steps.take 10) 1 _

/-- C6: a successful `get_place_details` call with a non-empty reviews list
renders at most the first 3 reviews, each review's text cut to its first 200
characters with an ellipsis marker appended; and cutting a text longer than
200 characters leaves exactly 200 characters. -/
theorem claim_C6_reviews_truncation (r : String × Json × String)
    (rs : List (String × Json × String)) :
    (placeDetailsRender (some (mkReviewsPayload (r :: rs))) =
      .ok (pdPlaceholderBase ++ "\n\nRecent Reviews:" ++
        reviewsExpected ((r :: rs).take 3))) ∧
    (∀ s : String, 200 < s.data.length → (pyTake 200 s).data.length = 200) := by
  constructor
  · have htake : ((r :: rs).map mkReview).take 3 = ((r :: rs).take 3).map mkReview :=
      (List.map_take mkReview (r :: rs) 3).symm
    calc placeDetailsRender (some (mkReviewsPayload (r :: rs)))
        = (reviewLoop (pdPlaceholderBase ++ "\n\nRecent Reviews:")
            (((r :: rs).map mkReview).take 3) >>= fun y => Except.ok y) := rfl
      _ = (reviewLoop (pdPlaceholderBase ++ "\n\nRecent Reviews:")
            (((r :: rs).take 3).map mkReview) >>= fun y => Except.ok y) := by rw [htake]
      _ = .ok (pdPlaceholderBase ++ "\n\nRecent Reviews:" ++
            reviewsExpected ((r :: rs).take 3)) := by
          rw [reviewLoop_spec ((r :: rs).take 3)
            (pdPlaceholderBase ++ "\n\nRecent Reviews:")]
          rfl
  · intro s h
    simp only [pyTake, List.length_take]
    omega

/-- C7: a successful `calculate_distance_matrix` call renders one `From:`
line per origin address and one nested `To` line per destination address, a
cell with non-`"OK"` status rendering `"Route not available"`, and the
rendering raises nothing. -/
theorem claim_C7_distance_matrix (mode : String) (o : String × List DMEntry)
    (os : List (String × List DMEntry)) (dests : List String)
    (hlen : ∀ p ∈ o :: os, p.2.length = dests.length)
    (hst : dmWellStatused (o :: os)) :
    distanceMatrixRender mode (some (mkDMPayload (o :: os) dests)) =
      .ok (dmExpected mode (o :: os) dests) := by
  have hst' : ∀ p ∈ o :: os, ∀ e ∈ p.2, ∀ st, e = DMEntry.blocked st → st ≠ "OK" := by
    intro p hp e he st hbl
    have := hst p hp e he
    rw [hbl] at this
    simpa [DMEntry.okStatused] using this
  calc distanceMatrixRender mode (some (mkDMPayload (o :: os) dests))
      = dmOuterLoop (mkDMPayload (o :: os) dests) 0
          ("Distance Matrix (" ++ pyTitle mode ++ " mode):\n\n")
          ((o :: os).map (fun p => Json.str p.1)) := rfl
    _ = .ok (("Distance Matrix (" ++ pyTitle mode ++ " mode):\n\n") ++
          dmBlocks dests (o :: os)) :=
        dmOuterLoop_spec (o :: os) dests (o :: os) 0 _ rfl hlen hst'
    _ = .ok (dmExpected mode (o :: os) dests) := rfl

/-- Witness for C7: a 1×2 matrix with one available and one blocked cell. -/
theorem claim_C7_witness :
    distanceMatrixRender "driving"
      (some (mkDMPayload [("A", [DMEntry.avail "12 km" "15 mins",
        DMEntry.blocked "ZERO_RESULTS"])] ["X", "Y"])) =
      .ok "Distance Matrix (Driving mode):\n\nFrom: A\n  To X: 12 km (15 mins)\n  To Y: Route not available\n\n" := by
  have h := claim_C7_distance_matrix "driving"
    ("A", [DMEntry.avail "12 km" "15 mins", DMEntry.blocked "ZERO_RESULTS"]) []
    ["X", "Y"] (by decide) (by intro p hp e he; fin_cases hp <;> fin_cases he <;> decide)
  rw [h]
  rfl

/-- C8: a successful `get_elevation` call renders, per coordinate record,
the elevation in meters and in feet computed as meters × 3.28084, both and
the resolution formatted by `fix2`; `fix2` always ends in a decimal point
followed by exactly two digit characters; and elevation 100 renders as
"100.00 meters (328.08 feet)". -/
theorem claim_C8_elevation_formatting (r : Json × Json × PyNum × PyNum)
    (recs : List (Json × Json × PyNum × PyNum)) :
    (elevationRender (some (mkElevPayload (r :: recs))) =
      .ok ("Elevation Data:\n\n" ++ elevExpected 0 (r :: recs))) ∧
    (∀ x : PyNum, ∃ pre : String, ∃ d₁ d₂ : Char,
      fix2 x = pre ++ "." ++ String.mk [d₁, d₂] ∧ d₁.isDigit = true ∧ d₂.isDigit = true) ∧
    elevationRender (some (mkElevPayload [(.num (.int 0), .num (.int 0), .int 100, .int 10)])) =
      .ok "Elevation Data:\n\nLocation 1: 0, 0\nElevation: 100.00 meters (328.08 feet)\nResolution: 10.00 meters\n\n" := by
  refine ⟨?_, ?_, by rfl⟩
  · calc elevationRender (some (mkElevPayload (r :: recs)))
        = elevLoop 0 "Elevation Data:\n\n" ((r :: recs).map mkElevRec) := rfl
      _ = .ok ("Elevation Data:\n\n" ++ elevExpected 0 (r :: recs)) :=
          elevLoop_spec (r :: recs) 0 _
  · intro x
    refine ⟨(if x.hundredths < 0 then "-" else "") ++ toString (x.hundredths.natAbs / 100),
      Nat.digitChar (x.hundredths.natAbs % 100 / 10),
      Nat.digitChar (x.hundredths.natAbs % 100 % 10), ?_, ?_, ?_⟩
    · simp [fix2, String.append_assoc]
    · exact digitChar_isDigit _ (by omega)
    · exact digitChar_isDigit _ (by omega)

/-- C4 counterexample: the claim says the credential never appears in any
diagnostic log line, but line 35 prints the raw transport exception, whose
message (for a real HTTP client's status error) embeds the full request URL
including the credential; the printed log line then contains the key. -/
theorem claim_C4_counterexample :
    (geocode_address "SECRET-KEY"
      (fun _ _ => .netError
        "403 Forbidden for url https://maps.googleapis.com/maps/api/geocode/json?address=Berlin&key=SECRET-KEY")
      "Berlin").logs =
      ["Request failed: 403 Forbidden for url https://maps.googleapis.com/maps/api/geocode/json?address=Berlin&key=SECRET-KEY"] ∧
    strContains
      "Request failed: 403 Forbidden for url https://maps.googleapis.com/maps/api/geocode/json?address=Berlin&key=SECRET-KEY"
      "SECRET-KEY" :=
  ⟨rfl,
   ⟨"Request failed: 403 Forbidden for url https://maps.googleapis.com/maps/api/geocode/json?address=Berlin&key=",
    "", by rfl⟩⟩

/-- C4 (amended): the caller-visible text result of every operation is
independent of the credential — two runs that differ only in the credential,
against the same credential-blind upstream behaviour, produce identical
results; diagnostic log lines, however, echo upstream-provided error text
verbatim and are credential-free only when that text is. -/
theorem claim_C4_credential_noninterference (f : String → Params → HttpResult)
    (k₁ k₂ : String) :
    (∀ address, (geocode_address k₁ (keyBlind f) address).result =
      (geocode_address k₂ (keyBlind f) address).result) ∧
    (∀ lat lng, (reverse_geocode k₁ (keyBlind f) lat lng).result =
      (reverse_geocode k₂ (keyBlind f) lat lng).result) ∧
    (∀ query loc radius, (search_places k₁ (keyBlind f) query loc radius).result =
      (search_places k₂ (keyBlind f) query loc radius).result) ∧
    (∀ pid, (get_place_details k₁ (keyBlind f) pid).result =
      (get_place_details k₂ (keyBlind f) pid).result) ∧
    (∀ origin dest mode, (get_directions k₁ (keyBlind f) origin dest mode).result =
      (get_directions k₂ (keyBlind f) origin dest mode).result) ∧
    (∀ origins dests mode,
      (calculate_distance_matrix k₁ (keyBlind f) origins dests mode).result =
      (calculate_distance_matrix k₂ (keyBlind f) origins dests mode).result) ∧
    (∀ locs, (get_elevation k₁ (keyBlind f) locs).result =
      (get_elevation k₂ (keyBlind f) locs).result) := by
  refine ⟨?_, ?_, ?_, ?_, ?_, ?_, ?_⟩
  · intro address
    simp only [geocode_address]
    rw [(mgr_keyBlind f k₁ k₂ "geocode/json" [("address", address)]).1]
  · intro lat lng
    simp only [reverse_geocode]
    rw [(mgr_keyBlind f k₁ k₂ "geocode/json"
      [("latlng", pyNumStr lat ++ "," ++ pyNumStr lng)]).1]
  · intro query loc radius
    simp only [search_places]
    rw [(mgr_keyBlind f k₁ k₂ "place/textsearch/json" _).1]
  · intro pid
    simp only [get_place_details]
    rw [(mgr_keyBlind f k₁ k₂ "place/details/json"
      [("place_id", pid), ("fields", placeDetailsFields)]).1]
  · intro origin dest mode
    have h := (mgr_keyBlind f k₁ k₂ "directions/json"
      [("origin", origin), ("destination", dest), ("mode", mode)]).1
    by_cases hm : mode ∈ validModes <;> simp [get_directions, hm, h]
  · intro origins dests mode
    have h := (mgr_keyBlind f k₁ k₂ "distancematrix/json"
      [("origins", String.intercalate "|" origins),
       ("destinations", String.intercalate "|" dests), ("mode", mode)]).1
    by_cases hm : mode ∈ validModes <;> simp [calculate_distance_matrix, hm, h]
  · intro locs
    cases hb : buildLocationStrings locs with
    | error e => simp [get_elevation, hb]
    | ok strs =>
      have h := (mgr_keyBlind f k₁ k₂ "elevation/json"
        [("locations", String.intercalate "|" strs)]).1
      simp [get_elevation, hb, h]

/-- A payload whose expected collection is present but an empty list trips
the shared failure test. -/
theorem absentOrFalsy_of_empty_arr (d : Json) (k : String)
    (h : d.dget k = some (.arr [])) : absentOrFalsy (some d) k = true := by
  have ht := dget_some_isTruthy d k _ h
  simp [absentOrFalsy, Json.getTruthy, h, ht, Json.isTruthy]

/-- A payload whose expected record is present but an empty object trips the
shared failure test. -/
theorem absentOrFalsy_of_empty_obj (d : Json) (k : String)
    (h : d.dget k = some (.obj [])) : absentOrFalsy (some d) k = true := by
  have ht := dget_some_isTruthy d k _ h
  simp [absentOrFalsy, Json.getTruthy, h, ht, Json.isTruthy]

/-- C1 counterexample: on an absent gateway result, `search_places` answers
with its fixed message "No places found for the search query." — which is not
an "unable to ..." text (no "nable to" occurs in it), contradicting the claim
that every operation's fixed failure message is an "unable to ..." text. -/
theorem claim_C1_counterexample :
    (search_places "K" (fun _ _ => .netError "boom") "pizza" none none).result =
      .ok "No places found for the search query." ∧
    ¬ "nable to".data <:+: "No places found for the search query.".data :=
  ⟨rfl, by decide⟩

/-- C1 (amended): the gateway normalizes all three failure paths — transport
exception, non-2xx HTTP status, payload status ≠ "OK" — to the absent
payload; and on an absent payload, or a payload whose expected collection is
empty, every operation returns exactly its fixed failure message without
raising (an "unable to ..." text for six operations, "No places found for
the search query." for `search_places`). -/
theorem claim_C1_failure_normalization :
    (∀ key ep ps msg,
      (make_google_request key (fun _ _ => .netError msg) ep ps).data = none) ∧
    (∀ key ep ps status errMsg body, ¬(200 ≤ status ∧ status < 300) →
      (make_google_request key (fun _ _ => .response status errMsg body) ep ps).data =
        none) ∧
    (∀ key ep ps status errMsg body, 200 ≤ status → status < 300 →
      pyEqStr (body.dget "status") "OK" = false →
      (make_google_request key (fun _ _ => .response status errMsg body) ep ps).data =
        none) ∧
    geocodeRender none = .ok "Unable to geocode the provided address." ∧
    (∀ lat lng, reverseGeocodeRender lat lng none =
      .ok "Unable to reverse geocode the provided coordinates.") ∧
    searchPlacesRender none = .ok "No places found for the search query." ∧
    placeDetailsRender none = .ok "Unable to fetch place details." ∧
    (∀ mode, directionsRender mode none =
      .ok "Unable to find directions for the specified route.") ∧
    (∀ mode, distanceMatrixRender mode none = .ok "Unable to calculate distance matrix.") ∧
    elevationRender none = .ok "Unable to fetch elevation data." ∧
    (∀ d, d.dget "results" = some (.arr []) →
      geocodeRender (some d) = .ok "Unable to geocode the provided address.") ∧
    (∀ lat lng d, d.dget "results" = some (.arr []) →
      reverseGeocodeRender lat lng (some d) =
        .ok "Unable to reverse geocode the provided coordinates.") ∧
    (∀ d, d.dget "results" = some (.arr []) →
      searchPlacesRender (some d) = .ok "No places found for the search query.") ∧
    (∀ d, d.dget "result" = some (.obj []) →
      placeDetailsRender (some d) = .ok "Unable to fetch place details.") ∧
    (∀ mode d, d.dget "routes" = some (.arr []) →
      directionsRender mode (some d) =
        .ok "Unable to find directions for the specified route.") ∧
    (∀ mode d, d.dget "rows" = some (.arr []) →
      distanceMatrixRender mode (some d) = .ok "Unable to calculate distance matrix.") ∧
    (∀ d, d.dget "results" = some (.arr []) →
      elevationRender (some d) = .ok "Unable to fetch elevation data.") := by
  refine ⟨?_, ?_, ?_, rfl, fun lat lng => rfl, rfl, rfl, fun mode => rfl,
    fun mode => rfl, rfl, ?_, ?_, ?_, ?_, ?_, ?_, ?_⟩
  · intro key ep ps msg; rfl
  · intro key ep ps status errMsg body h
    simp [make_google_request, h]
  · intro key ep ps status errMsg body h1 h2 h3
    simp [make_google_request, h1, h2, h3]
  · intro d h; simp [geocodeRender, absentOrFalsy_of_empty_arr d "results" h]
  · intro lat lng d h
    simp [reverseGeocodeRender, absentOrFalsy_of_empty_arr d "results" h]
  · intro d h; simp [searchPlacesRender, absentOrFalsy_of_empty_arr d "results" h]
  · intro d h; simp [placeDetailsRender, absentOrFalsy_of_empty_obj d "result" h]
  · intro mode d h; simp [directionsRender, absentOrFalsy_of_empty_arr d "routes" h]
  · intro mode d h; simp [distanceMatrixRender, absentOrFalsy_of_empty_arr d "rows" h]
  · intro d h; simp [elevationRender, absentOrFalsy_of_empty_arr d "results" h]

/-- Witness for C1, instantiating every hypothesis-bearing clause at concrete
inputs: HTTP 404; a REQUEST_DENIED payload; and empty result collections for
each operation. -/
theorem claim_C1_witness :
    (make_google_request "K" (fun _ _ => .response 404 "e" .null) "geocode/json"
      [("address", "x")]).data = none ∧
    (make_google_request "K" (fun _ _ => .response 200 "e"
      (.obj [("status", .str "REQUEST_DENIED")])) "geocode/json"
      [("address", "x")]).data = none ∧
    geocodeRender (some (.obj [("status", .str "OK"), ("results", .arr [])])) =
      .ok "Unable to geocode the provided address." ∧
    reverseGeocodeRender (.int 1) (.int 2)
      (some (.obj [("status", .str "OK"), ("results", .arr [])])) =
      .ok "Unable to reverse geocode the provided coordinates." ∧
    searchPlacesRender (some (.obj [("status", .str "OK"), ("results", .arr [])])) =
      .ok "No places found for the search query." ∧
    placeDetailsRender (some (.obj [("status", .str "OK"), ("result", .obj [])])) =
      .ok "Unable to fetch place details." ∧
    directionsRender "driving" (some (.obj [("status", .str "OK"), ("routes", .arr [])])) =
      .ok "Unable to find directions for the specified route." ∧
    distanceMatrixRender "driving" (some (.obj [("status", .str "OK"), ("rows", .arr [])])) =
      .ok "Unable to calculate distance matrix." ∧
    elevationRender (some (.obj [("status", .str "OK"), ("results", .arr [])])) =
      .ok "Unable to fetch elevation data." := by
  obtain ⟨g1, g2, g3, r1, r2, r3, r4, r5, r6, r7, e1, e2, e3, e4, e5, e6, e7⟩ :=
    claim_C1_failure_normalization
  exact ⟨g2 "K" "geocode/json" [("address", "x")] 404 "e" .null (by decide),
    g3 "K" "geocode/json" [("address", "x")] 200 "e"
      (.obj [("status", .str "REQUEST_DENIED")]) (by decide) (by decide) (by rfl),
    e1 _ (by rfl), e2 (.int 1) (.int 2) _ (by rfl), e3 _ (by rfl), e4 _ (by rfl),
    e5 "driving" _ (by rfl), e6 "driving" _ (by rfl), e7 _ (by rfl)⟩

/-- C2 counterexample: the claim says every operation tolerates result
records lacking any field it reads, but `geocode_address` indexes required
fields directly: on a successful payload whose single result record is empty,
line 52 raises `KeyError: geometry` instead of producing a text result. -/
theorem claim_C2_counterexample :
    (geocode_address "K" (fun _ _ => .response 200 ""
      (.obj [("status", .str "OK"), ("results", .arr [.obj []])])) "x").result =
      .error "KeyError: geometry" := rfl

/-- C2 (amended): only the fields read through defaulting lookups are
tolerated when absent — `get_place_details` renders all its optional fields
as placeholders, `search_places` renders placeholder address/rating/types —
while a field read by direct indexing (e.g. `geometry` in `geocode_address`)
raises a `KeyError` when missing instead of rendering a placeholder. -/
theorem claim_C2_optional_placeholders :
    (∀ fs : List (String × Json), fs ≠ [] →
      (Json.obj fs).dget "name" = none →
      (Json.obj fs).dget "formatted_address" = none →
      (Json.obj fs).dget "formatted_phone_number" = none →
      (Json.obj fs).dget "website" = none →
      (Json.obj fs).dget "rating" = none →
      (Json.obj fs).dget "opening_hours" = none →
      (Json.obj fs).dget "reviews" = none →
      placeDetailsRender (some (.obj [("status", .str "OK"), ("result", .obj fs)])) =
        .ok pdPlaceholderBase) ∧
    (∀ name pid : String,
      searchPlacesRender (some (.obj [("status", .str "OK"),
        ("results", .arr [.obj [("name", .str name), ("place_id", .str pid)]])])) =
        .ok ("\nName: " ++ name ++ "\nAddress: " ++ "Address not available" ++
          "\nRating: " ++ "No rating" ++ " stars" ++ "\nTypes: " ++ "" ++
          "\nPlace ID: " ++ pid ++ "\n")) ∧
    (∀ fs : List (String × Json), (Json.obj fs).dget "geometry" = none →
      geocodeRender (some (.obj [("status", .str "OK"), ("results", .arr [.obj fs])])) =
        .error "KeyError: geometry") := by
  refine ⟨?_, fun name pid => rfl, ?_⟩
  · intro fs hne h1 h2 h3 h4 h5 h6 h7
    cases fs with
    | nil => exact absurd rfl hne
    | cons p rest =>
      have hg : absentOrFalsy (some (Json.obj [("status", Json.str "OK"),
          ("result", Json.obj (p :: rest))])) "result" = false := rfl
      have hidx : (Json.obj [("status", Json.str "OK"),
          ("result", Json.obj (p :: rest))]).index "result" =
          Except.ok (Json.obj (p :: rest)) := rfl
      simp only [placeDetailsRender, hg, hidx, Bool.false_eq_true, if_false,
        Option.getD_some, Bind.bind, Except.bind, jGetD, h1, h2, h3, h4, h5,
        Json.getTruthy, h6, h7]
      rfl
  · intro fs h
    have hg : absentOrFalsy (some (Json.obj [("status", Json.str "OK"),
        ("results", Json.arr [Json.obj fs])])) "results" = false := rfl
    have hr : (Json.obj [("status", Json.str "OK"),
        ("results", Json.arr [Json.obj fs])]).index "results" =
        Except.ok (Json.arr [Json.obj fs]) := rfl
    have hi : (Json.arr [Json.obj fs]).item 0 = Except.ok (Json.obj fs) := rfl
    have hgeo : (Json.obj fs).index "geometry" = Except.error "KeyError: geometry" := by
      simp only [Json.index, h]
      rfl
    simp [geocodeRender, hg, hr, hi, hgeo, Bind.bind, Except.bind]

/-- Witness for C2's amendment: a result record holding only an unrelated
field renders the full placeholder report, and a geocode result record
lacking `geometry` raises. -/
theorem claim_C2_witness :
    placeDetailsRender (some (.obj [("status", .str "OK"),
      ("result", .obj [("extra", .null)])])) = .ok pdPlaceholderBase ∧
    geocodeRender (some (.obj [("status", .str "OK"),
      ("results", .arr [.obj [("place_id", .str "p")]])])) =
      .error "KeyError: geometry" := by
  obtain ⟨h1, h2, h3⟩ := claim_C2_optional_placeholders
  exact ⟨h1 [("extra", .null)] (List.cons_ne_nil _ _) (by rfl) (by rfl) (by rfl)
    (by rfl) (by rfl) (by rfl) (by rfl), h3 [("place_id", .str "p")] (by rfl)⟩

/-- Witness for C5's amendment at a concrete route and a tag-free
instruction. -/
theorem claim_C5_witness :
    directionsRender "driving" (some (mkDirPayload "I-280" "5 km" "10 mins"
      [("Turn <b>left</b>", "1 km", "2 mins")] [] [])) =
      .ok (dirExpectedHeader "driving" "I-280" "5 km" "10 mins" ++
        dirExpectedSteps 1 [("Turn <b>left</b>", "1 km", "2 mins")]) ∧
    stripHtml "Continue straight" = "Continue straight" := by
  have h := claim_C5_directions_rendering "driving" "I-280" "5 km" "10 mins"
    [("Turn <b>left</b>", "1 km", "2 mins")] [] []
  exact ⟨h.1, h.2.1 "Continue straight" (by decide) (by decide) (by decide) (by decide)⟩

/-- Witness for C6 at a concrete review and a 201-character text. -/
theorem claim_C6_witness :
    placeDetailsRender (some (mkReviewsPayload [("Alice", Json.num (.int 5), "Great")])) =
      .ok (pdPlaceholderBase ++ "\n\nRecent Reviews:" ++
        reviewsExpected [("Alice", Json.num (.int 5), "Great")]) ∧
    (pyTake 200 (String.mk (List.replicate 201 'a'))).data.length = 200 := by
  have h := claim_C6_reviews_truncation ("Alice", Json.num (.int 5), "Great") []
  refine ⟨h.1, h.2 (String.mk (List.replicate 201 'a')) ?_⟩
  rw [show (String.mk (List.replicate 201 'a')).data = List.replicate 201 'a' from rfl,
    List.length_replicate]
  omega
